import Mathlib

/-!
Shallow embedding of the devspace pipeline-engine command-interception layer
(`src/pkg/devspace/pipeline/engine/handler.go`, which contains two versions of
the engine: the full one with six gated reserved commands, embedded in
namespace `full`, and a reduced one with three ungated reserved commands,
embedded in namespace `reduced`), of the kubectl deployer
(`src/unnamed/part_000`, namespace `kubectl`) and of the upgrade version check
(`src/pkg/devspace/upgrade/upgrade.go`, namespace `upgrade`).

Effects (stderr writes, native subsystem calls, path lookups, fallback
invocations, default process executions, binary downloads) are made explicit
in the returned `ExecOutcome` record.  External collaborators (the native
subsystems, the path lookup, the downloader, `os.Executable`, and the shell
interpreter's default exec handler) are abstracted as an `Env` record of
functions.
-/

/-- Result of a Go handler function returning `error`: either the `nil` error
or an `interp.NewExitStatus n` error carrying a shell exit status. -/
inductive HandlerResult where
  | nilErr : HandlerResult
  | exit (n : Nat) : HandlerResult
deriving DecidableEq, Repr

/-- Logger attached to a derived context: either the ambient pipeline logger
`e.ctx.Log` reused as-is, or a fresh stream logger `log.NewStreamLogger(out, level)`
wrapping output stream `out` at severity `level`.  Streams (`io.Writer` values)
are identified by natural numbers. -/
inductive Logger where
  | ambient : Logger
  | stream (out : Nat) (level : Nat) : Logger
deriving DecidableEq, Repr

/-- The scoped devspace context derived per invocation: working directory and
logger (the fields `WithWorkingDir` and `WithLogger` replace). -/
structure DevCtx where
  workingDir : String
  log : Logger
deriving DecidableEq, Repr

/-- The fields of `interp.HandlerCtx(ctx)` the handler reads: current dir and
the identity of the invocation's stdout stream. -/
structure HandlerCtxData where
  dir : String
  stdout : Nat
deriving DecidableEq, Repr

/-- A call into a native subsystem (`enginecommands.*`), recording which
subsystem was invoked, with which derived context and argument list. -/
inductive SubsystemCall where
  | pipeline (ctx : DevCtx) (args : List String)
  | build (ctx : DevCtx) (args : List String)
  | deploy (ctx : DevCtx) (args : List String)
  | startDev (ctx : DevCtx) (args : List String)
  | stopDev (ctx : DevCtx) (args : List String)
  | dependency (ctx : DevCtx) (args : List String)
  | dev (ctx : DevCtx) (args : List String)
deriving DecidableEq, Repr

/-- External collaborators, abstracted as functions.  `sub` gives the outcome
of a native subsystem call (`none` = no error, `some msg` = error with message
`msg`); `lookPathOk dir name` is whether `lookPathDir` succeeds; `catResult`
is the outcome of `enginecommands.Cat`; `ensureKubectl`/`ensureHelm` are the
outcomes of `downloader.EnsureCommand` (`.ok path` or `.error msg`);
`osExecutable` is `os.Executable()`; `defaultExec` is the interpreter's
`interp.DefaultExecHandler` applied to the full argument vector. -/
structure Env where
  sub : SubsystemCall → Option String
  lookPathOk : String → String → Bool
  catResult : List String → Option String
  ensureKubectl : Except String String
  ensureHelm : Except String String
  osExecutable : Except String String
  defaultExec : List String → HandlerResult

/-- Observable outcome of one `ExecHandler` invocation: the returned error
value plus the trace of effects: lines written to the invocation's stderr,
native subsystem calls made, names passed to `lookPathDir`, names passed to
`fallbackCommands`, argument vectors passed to `interp.DefaultExecHandler`,
and tool identities passed to the downloader. -/
structure ExecOutcome where
  result : HandlerResult
  stderr : List String
  calls : List SubsystemCall
  lookups : List String
  fallbacks : List String
  defaultExecs : List (List String)
  downloads : List String
deriving DecidableEq, Repr

namespace full

/-- State of the full `execHandler` struct: `stdout` (possibly nil), the
`enablePipelineCommands` flag, and the ambient logger's severity level
(`e.ctx.Log.GetLevel()`). -/
structure ExecHandlerState where
  stdout : Option Nat
  enablePipelineCommands : Bool
  ambientLogLevel : Nat
deriving DecidableEq, Repr

/-- Context derivation of `handlePipelineCommands` (handler.go lines 62-69):
working directory replaced by `hc.Dir`; logger is the ambient one when
`e.stdout != nil && e.stdout == hc.Stdout`, else a fresh stream logger on
`hc.Stdout` at the ambient level. -/
def deriveDevCtx (e : ExecHandlerState) (hc : HandlerCtxData) : DevCtx :=
  { workingDir := hc.dir
  , log :=
      if e.stdout = some hc.stdout then Logger.ambient
      else Logger.stream hc.stdout e.ambientLogLevel }

/-- Translator `handleError` (handler.go lines 111-119): nil error becomes
exit 0; otherwise `errors.Wrap(err, command)` (message `command ++ ": " ++ msg`)
is printed to stderr and the result is exit 1. -/
def handleError (command : String) (err : Option String) :
    HandlerResult × List String :=
  match err with
  | none => (HandlerResult.exit 0, [])
  | some msg => (HandlerResult.exit 1, [command ++ ": " ++ msg])

/-- Dispatch wrapper `executePipelineCommand` (handler.go lines 101-109): when
pipeline commands are disabled, print the rejection diagnostic and return
`(true, exit 1)` without calling the subsystem; otherwise run the command
closure (recorded as the subsystem call) and translate via `handleError`.
Returns (handled, result, stderr lines, subsystem calls). -/
def executePipelineCommand (e : ExecHandlerState) (command : String)
    (call : SubsystemCall) (env : Env) :
    Bool × HandlerResult × List String × List SubsystemCall :=
  if !e.enablePipelineCommands then
    (true, HandlerResult.exit 1,
      [command ++ ": cannot execute the command because it can only be executed within a pipeline step"],
      [])
  else
    let t := handleError command (env.sub call)
    (true, t.1, t.2, [call])

/-- The switch of `handlePipelineCommands` (handler.go lines 61-99): the six
reserved names are dispatched through `executePipelineCommand` with the
per-invocation derived context; any other name returns `(false, nil)`. -/
def handlePipelineCommands (e : ExecHandlerState) (hc : HandlerCtxData)
    (command : String) (args : List String) (env : Env) :
    Bool × HandlerResult × List String × List SubsystemCall :=
  let devCtx := deriveDevCtx e hc
  if command = "run_pipelines" then
    executePipelineCommand e command (SubsystemCall.pipeline devCtx args) env
  else if command = "build_images" then
    executePipelineCommand e command (SubsystemCall.build devCtx args) env
  else if command = "create_deployments" then
    executePipelineCommand e command (SubsystemCall.deploy devCtx args) env
  else if command = "start_dev" then
    executePipelineCommand e command (SubsystemCall.startDev devCtx args) env
  else if command = "stop_dev" then
    executePipelineCommand e command (SubsystemCall.stopDev devCtx args) env
  else if command = "run_dependencies_pipeline" then
    executePipelineCommand e command (SubsystemCall.dependency devCtx args) env
  else
    (false, HandlerResult.nilErr, [], [])

/-- The switch of `fallbackCommands` (handler.go lines 121-156).  Returns
(result error, stderr lines, the final value of the local `command` variable,
downloader invocations).  Note the Go function assigns the resolved path to
its local `command` parameter and then returns nil; the third component makes
that local value visible, and the caller (`ExecHandler`, like the Go caller)
discards it. -/
def fallbackCommands (command : String) (args : List String) (env : Env) :
    Option Nat × List String × String × List String :=
  if command = "cat" then
    match env.catResult args with
    | some msg => (some 1, [msg], command, [])
    | none => (some 0, [], command, [])
  else if command = "kubectl" then
    match env.ensureKubectl with
    | Except.error msg => (some 127, [msg], command, ["kubectl"])
    | Except.ok path => (none, [], path, ["kubectl"])
  else if command = "helm" then
    match env.ensureHelm with
    | Except.error msg => (some 127, [msg], command, ["helm"])
    | Except.ok path => (none, [], path, ["helm"])
  else if command = "devspace" then
    match env.osExecutable with
    | Except.error msg => (some 1, [msg], command, [])
    | Except.ok bin => (none, [], bin, [])
  else
    (none, [], command, [])

/-- The resolver `ExecHandler` (handler.go lines 39-59): try the pipeline
command table; if handled or an error was produced, return it; otherwise look
the name up on the path, on failure run the fallback provider (a non-nil
fallback result is returned as-is); finally delegate to the interpreter's
default exec handler with the original, unmodified argument vector. -/
def ExecHandler (e : ExecHandlerState) (hc : HandlerCtxData)
    (args : List String) (env : Env) : ExecOutcome :=
  match args with
  | [] =>
    { result := env.defaultExec []
    , stderr := [], calls := [], lookups := [], fallbacks := []
    , defaultExecs := [[]], downloads := [] }
  | command :: rest =>
    let h := handlePipelineCommands e hc command rest env
    if h.1 = true ∨ h.2.1 ≠ HandlerResult.nilErr then
      { result := h.2.1, stderr := h.2.2.1, calls := h.2.2.2
      , lookups := [], fallbacks := [], defaultExecs := [], downloads := [] }
    else if env.lookPathOk hc.dir command then
      { result := env.defaultExec (command :: rest)
      , stderr := h.2.2.1, calls := h.2.2.2, lookups := [command]
      , fallbacks := [], defaultExecs := [command :: rest], downloads := [] }
    else
      let f := fallbackCommands command rest env
      match f.1 with
      | some n =>
        { result := HandlerResult.exit n
        , stderr := h.2.2.1 ++ f.2.1, calls := h.2.2.2, lookups := [command]
        , fallbacks := [command], defaultExecs := [], downloads := f.2.2.2 }
      | none =>
        { result := env.defaultExec (command :: rest)
        , stderr := h.2.2.1 ++ f.2.1, calls := h.2.2.2, lookups := [command]
        , fallbacks := [command], defaultExecs := [command :: rest]
        , downloads := f.2.2.2 }

end full

/-- The six reserved command names of the full engine. -/
def reservedNames : List String :=
  ["run_pipelines", "build_images", "create_deployments",
   "start_dev", "stop_dev", "run_dependencies_pipeline"]

/-- The names known to the fallback provider (both variants). -/
def fallbackNames : List String := ["cat", "kubectl", "helm", "devspace"]

/-- The reserved-name-to-subsystem mapping of the full engine's dispatch
switch: `some call` for the six reserved names, `none` otherwise. -/
def reservedCall (ctx : DevCtx) (name : String) (args : List String) :
    Option SubsystemCall :=
  if name = "run_pipelines" then some (SubsystemCall.pipeline ctx args)
  else if name = "build_images" then some (SubsystemCall.build ctx args)
  else if name = "create_deployments" then some (SubsystemCall.deploy ctx args)
  else if name = "start_dev" then some (SubsystemCall.startDev ctx args)
  else if name = "stop_dev" then some (SubsystemCall.stopDev ctx args)
  else if name = "run_dependencies_pipeline" then some (SubsystemCall.dependency ctx args)
  else none

namespace reduced

/-- State of the reduced `execHandler` struct (handler.go lines 183-186): it
carries only the ambient context (modelled by the ambient logger's severity
level); there is no stdout field and no enable flag. -/
structure ExecHandlerState where
  ambientLogLevel : Nat
deriving DecidableEq, Repr

/-- Context derivation of the reduced `handlePipelineCommands` (handler.go
lines 210-214): working directory replaced by `hc.Dir` and the logger always
replaced by a fresh stream logger on `hc.Stdout` at the ambient level. -/
def deriveDevCtx (e : ExecHandlerState) (hc : HandlerCtxData) : DevCtx :=
  { workingDir := hc.dir
  , log := Logger.stream hc.stdout e.ambientLogLevel }

/-- Translator `handleError` of the reduced engine (handler.go lines 231-239):
nil error becomes exit 0; otherwise the error is printed to stderr unmodified
and the result is exit 1. -/
def handleError (err : Option String) : HandlerResult × List String :=
  match err with
  | none => (HandlerResult.exit 0, [])
  | some msg => (HandlerResult.exit 1, [msg])

/-- The switch of the reduced `handlePipelineCommands` (handler.go lines
210-229): `build`, `deploy` and `dev` call their subsystem unconditionally
and translate via `handleError`; any other name returns `(false, nil)`. -/
def handlePipelineCommands (e : ExecHandlerState) (hc : HandlerCtxData)
    (command : String) (args : List String) (env : Env) :
    Bool × HandlerResult × List String × List SubsystemCall :=
  let devCtx := deriveDevCtx e hc
  if command = "build" then
    let t := handleError (env.sub (SubsystemCall.build devCtx args))
    (true, t.1, t.2, [SubsystemCall.build devCtx args])
  else if command = "deploy" then
    let t := handleError (env.sub (SubsystemCall.deploy devCtx args))
    (true, t.1, t.2, [SubsystemCall.deploy devCtx args])
  else if command = "dev" then
    let t := handleError (env.sub (SubsystemCall.dev devCtx args))
    (true, t.1, t.2, [SubsystemCall.dev devCtx args])
  else
    (false, HandlerResult.nilErr, [], [])

/-- The switch of the reduced `fallbackCommands` (handler.go lines 241-279):
identical to the full one except that an unknown name is not declined; the
default branch prints "command is not found." and returns exit 127 itself. -/
def fallbackCommands (command : String) (args : List String) (env : Env) :
    Option Nat × List String × String × List String :=
  if command = "cat" then
    match env.catResult args with
    | some msg => (some 1, [msg], command, [])
    | none => (some 0, [], command, [])
  else if command = "kubectl" then
    match env.ensureKubectl with
    | Except.error msg => (some 127, [msg], command, ["kubectl"])
    | Except.ok path => (none, [], path, ["kubectl"])
  else if command = "helm" then
    match env.ensureHelm with
    | Except.error msg => (some 127, [msg], command, ["helm"])
    | Except.ok path => (none, [], path, ["helm"])
  else if command = "devspace" then
    match env.osExecutable with
    | Except.error msg => (some 1, [msg], command, [])
    | Except.ok bin => (none, [], bin, [])
  else
    (some 127, ["command is not found."], command, [])

/-- The reduced resolver `ExecHandler` (handler.go lines 188-208): same
control flow as the full one, over the reduced table and fallback switch. -/
def ExecHandler (e : ExecHandlerState) (hc : HandlerCtxData)
    (args : List String) (env : Env) : ExecOutcome :=
  match args with
  | [] =>
    { result := env.defaultExec []
    , stderr := [], calls := [], lookups := [], fallbacks := []
    , defaultExecs := [[]], downloads := [] }
  | command :: rest =>
    let h := handlePipelineCommands e hc command rest env
    if h.1 = true ∨ h.2.1 ≠ HandlerResult.nilErr then
      { result := h.2.1, stderr := h.2.2.1, calls := h.2.2.2
      , lookups := [], fallbacks := [], defaultExecs := [], downloads := [] }
    else if env.lookPathOk hc.dir command then
      { result := env.defaultExec (command :: rest)
      , stderr := h.2.2.1, calls := h.2.2.2, lookups := [command]
      , fallbacks := [], defaultExecs := [command :: rest], downloads := [] }
    else
      let f := fallbackCommands command rest env
      match f.1 with
      | some n =>
        { result := HandlerResult.exit n
        , stderr := h.2.2.1 ++ f.2.1, calls := h.2.2.2, lookups := [command]
        , fallbacks := [command], defaultExecs := [], downloads := f.2.2.2 }
      | none =>
        { result := env.defaultExec (command :: rest)
        , stderr := h.2.2.1 ++ f.2.1, calls := h.2.2.2, lookups := [command]
        , fallbacks := [command], defaultExecs := [command :: rest]
        , downloads := f.2.2.2 }

end reduced

/-- The three reserved command names of the reduced engine. -/
def reducedReservedNames : List String := ["build", "deploy", "dev"]

example :
    full.ExecHandler ⟨some 7, true, 2⟩ ⟨"/w", 7⟩ ["build_images", "--all"]
      { sub := fun _ => none, lookPathOk := fun _ _ => false
      , catResult := fun _ => none, ensureKubectl := Except.ok "/cache/kubectl"
      , ensureHelm := Except.ok "/cache/helm"
      , osExecutable := Except.ok "/bin/devspace"
      , defaultExec := fun _ => HandlerResult.exit 127 } =
    { result := HandlerResult.exit 0, stderr := []
    , calls := [SubsystemCall.build ⟨"/w", Logger.ambient⟩ ["--all"]]
    , lookups := [], fallbacks := [], defaultExecs := [], downloads := [] } := by
  rfl

namespace kubectl

/-- The two hash fields of the deployment cache read and written by the
kubectl deployer. -/
structure DeploymentCache where
  kubectlManifestsHash : String
  deploymentConfigHash : String
deriving DecidableEq, Repr

/-- External collaborators of `DeployConfig.Deploy` (part_000): `hashString`
is `hash.String`, `resolvePath` is `ctx.ResolvePath`, `hashDirectory` is
`hash.Directory` on a resolved path, `marshalConfig` is
`yaml.Marshal(d.DeploymentConfig)`, `getReplacedManifest` gives per manifest
the `(shouldRedeploy, replacedManifest)` pair or an error, and `runApply`
gives per manifest the outcome of the `kubectl apply` command run (`none` =
success). -/
structure DeployCollab where
  hashString : String → String
  resolvePath : String → String
  hashDirectory : String → Except String String
  marshalConfig : Except String String
  getReplacedManifest : String → Except String (Bool × String)
  runApply : String → Option String

/-- The manifests-hash accumulation loop of `Deploy` (part_000 lines 158-174):
URL manifests contribute `hash.String(manifest)`; others are resolved and
contribute `hash.Directory`, an error aborting with the wrapped message. -/
def computeManifestsHash (c : DeployCollab) (manifests : List String)
    (acc : String) : Except String String :=
  match manifests with
  | [] => Except.ok acc
  | m :: rest =>
    if m.startsWith "http://" || m.startsWith "https://" then
      computeManifestsHash c rest (acc ++ c.hashString m)
    else
      match c.hashDirectory (c.resolvePath m) with
      | Except.error e =>
        Except.error ("Error hashing " ++ c.resolvePath m ++ ": " ++ e)
      | Except.ok h => computeManifestsHash c rest (acc ++ h)

/-- The apply loop of `Deploy` (part_000 lines 194-215): per manifest, build
the replaced manifest; apply it when `shouldRedeploy || forceDeploy`, setting
`wasDeployed`; otherwise log a skip.  Returns the result together with the
lists of applied and skipped manifests (effects that happen before an error
abort are kept). -/
def applyLoop (c : DeployCollab) (forceDeploy : Bool)
    (manifests : List String) (wasDeployed : Bool) :
    Except String Bool × List String × List String :=
  match manifests with
  | [] => (Except.ok wasDeployed, [], [])
  | m :: rest =>
    match c.getReplacedManifest m with
    | Except.error e =>
      (Except.error (e ++ "\nPlease make sure `kubectl apply` does work locally with manifest `" ++ m ++ "`"),
        [], [])
    | Except.ok sr =>
      if sr.1 || forceDeploy then
        match c.runApply m with
        | some e =>
          (Except.error (e ++ "\nPlease make sure the command `kubectl apply` does work locally with manifest `" ++ m ++ "`"),
            [m], [])
        | none =>
          let r := applyLoop c forceDeploy rest true
          (r.1, m :: r.2.1, r.2.2)
      else
        let r := applyLoop c forceDeploy rest wasDeployed
        (r.1, r.2.1, m :: r.2.2)

/-- Observable outcome of one `Deploy` run: the returned `(wasDeployed, err)`
pair, the manifests applied, the manifests skipped, and the deployment cache
record written back (if the run got that far). -/
structure DeployOut where
  result : Except String Bool
  applied : List String
  skipped : List String
  cacheWrite : Option DeploymentCache
deriving Repr

/-- The kubectl deployer's `Deploy` (part_000 lines 155-221): hash the
manifests, hash the marshalled deployment config, set `forceDeploy := true`
(the commented-out hash comparison with the cached values is deliberately
disabled), run the apply loop, then store the freshly computed hashes into
the deployment cache and return `wasDeployed`. -/
def Deploy (c : DeployCollab) (deployCache : DeploymentCache)
    (manifests : List String) : DeployOut :=
  match computeManifestsHash c manifests "" with
  | Except.error e =>
    { result := Except.error e, applied := [], skipped := [], cacheWrite := none }
  | Except.ok manifestsHash =>
    match c.marshalConfig with
    | Except.error e =>
      { result := Except.error ("marshal deployment config: " ++ e)
      , applied := [], skipped := [], cacheWrite := none }
    | Except.ok configStr =>
      let deploymentConfigHash := c.hashString configStr
      let forceDeploy := true
      let r := applyLoop c forceDeploy manifests false
      match r.1 with
      | Except.error e =>
        { result := Except.error e, applied := r.2.1, skipped := r.2.2
        , cacheWrite := none }
      | Except.ok wasDeployed =>
        { result := Except.ok wasDeployed, applied := r.2.1, skipped := r.2.2
        , cacheWrite := some { deployCache with
            kubectlManifestsHash := manifestsHash
          , deploymentConfigHash := deploymentConfigHash } }

end kubectl

namespace upgrade

/-- The package-level memoization state of upgrade.go lines 73-77: the
`latestVersion` and `latestVersionErr` variables together with whether the
`sync.Once` has fired. -/
structure LatestState where
  latestVersion : String
  latestVersionErr : Option String
  onceDone : Bool
deriving DecidableEq, Repr

/-- External collaborators of `CheckForNewerVersion`: `detectLatest` is
`selfupdate.DetectLatest(githubSlug)` returning an error or the pair
`(found, latest.Version.String())`; `version` is the package version
variable; `versionEquals latest version` is `latest.Version.Equals(semver.MustParse(version))`. -/
structure CheckCollab where
  detectLatest : Except String (Bool × String)
  version : String
  versionEquals : String → String → Bool

/-- The body of the `sync.Once` closure in `CheckForNewerVersion` (upgrade.go
lines 81-94): a lookup error is stored in `latestVersionErr`; a missing or
already-current latest version leaves the state unchanged; otherwise the
latest version string is stored. -/
def detectOnceBody (c : CheckCollab) (s : LatestState) : LatestState :=
  match c.detectLatest with
  | Except.error e => { s with latestVersionErr := some e }
  | Except.ok fl =>
    if !fl.1 || c.versionEquals fl.2 c.version then s
    else { s with latestVersion := fl.2 }

/-- `CheckForNewerVersion` (upgrade.go lines 80-97) as a state transition:
when the once has already fired, return the memoized pair without any lookup;
otherwise run the once body (one remote lookup, counted by the third
component) and return the stored pair. -/
def CheckForNewerVersion (c : CheckCollab) (s : LatestState) :
    (String × Option String) × LatestState × Nat :=
  if s.onceDone then ((s.latestVersion, s.latestVersionErr), s, 0)
  else
    let t := detectOnceBody c s
    let s' := { t with onceDone := true }
    ((s'.latestVersion, s'.latestVersionErr), s', 1)

/-- The process-start state: empty memoized version, no error, once not yet
fired. -/
def startState : LatestState :=
  { latestVersion := "", latestVersionErr := none, onceDone := false }

/-- Run `n` successive calls of `CheckForNewerVersion` from state `s`,
collecting the returned pairs, the final state and the total number of remote
lookups performed. -/
def runChecks (c : CheckCollab) (s : LatestState) :
    Nat → List (String × Option String) × LatestState × Nat
  | 0 => ([], s, 0)
  | Nat.succ n =>
    let r := CheckForNewerVersion c s
    let rs := runChecks c r.2.1 n
    (r.1 :: rs.1, rs.2.1, r.2.2 + rs.2.2)

end upgrade

/-! Helper lemmas shared by the claim theorems. -/

/-- On a reserved name, `ExecHandler` short-circuits to the dispatch wrapper:
no lookup, no fallback, no default execution, no download. -/
lemma execHandler_reserved_eq
    (e : full.ExecHandlerState) (hc : HandlerCtxData) (args : List String)
    (env : Env) (name : String) (call : SubsystemCall)
    (hres : reservedCall (full.deriveDevCtx e hc) name args = some call) :
    full.ExecHandler e hc (name :: args) env =
      { result := (full.executePipelineCommand e name call env).2.1
      , stderr := (full.executePipelineCommand e name call env).2.2.1
      , calls := (full.executePipelineCommand e name call env).2.2.2
      , lookups := [], fallbacks := [], defaultExecs := []
      , downloads := [] } := by
  unfold reservedCall at hres
  split_ifs at hres with h1 h2 h3 h4 h5 h6
  all_goals
    first
      | exact Option.noConfusion hres
      | (injection hres with hres
         subst hres
         subst_vars
         cases hen : e.enablePipelineCommands <;>
           simp [full.ExecHandler, full.handlePipelineCommands,
                 full.executePipelineCommand, hen])

/-- Claim C1: for every reserved command name, invoking it with pipeline
commands enabled calls exactly the mapped native subsystem, exactly once,
with the derived context and exactly the arguments after the command name,
and the exit status is 0 iff the subsystem call returns no error. -/
theorem reserved_enabled_calls_subsystem_once
    (e : full.ExecHandlerState) (hc : HandlerCtxData) (args : List String)
    (env : Env) (name : String) (call : SubsystemCall)
    (hen : e.enablePipelineCommands = true)
    (hres : reservedCall (full.deriveDevCtx e hc) name args = some call) :
    (full.ExecHandler e hc (name :: args) env).calls = [call] ∧
    ((full.ExecHandler e hc (name :: args) env).result = HandlerResult.exit 0 ↔
      env.sub call = none) := by
  rw [execHandler_reserved_eq e hc args env name call hres]
  constructor
  · simp [full.executePipelineCommand, hen]
  · cases hsub : env.sub call <;>
      simp [full.executePipelineCommand, full.handleError, hen, hsub]

/-- Witness for C1: the scenario name="build_images", args=["--all"], mode
enabled, Build subsystem returns no error: exactly one Build call with
["--all"], exit status 0. -/
theorem reserved_enabled_calls_subsystem_once_witness :
    (full.ExecHandler ⟨some 7, true, 2⟩ ⟨"/work", 7⟩ ("build_images" :: ["--all"])
        { sub := fun _ => none, lookPathOk := fun _ _ => false
        , catResult := fun _ => none
        , ensureKubectl := Except.ok "/cache/kubectl"
        , ensureHelm := Except.ok "/cache/helm"
        , osExecutable := Except.ok "/bin/devspace"
        , defaultExec := fun _ => HandlerResult.exit 127 }).calls =
      [SubsystemCall.build (full.deriveDevCtx ⟨some 7, true, 2⟩ ⟨"/work", 7⟩) ["--all"]] ∧
    ((full.ExecHandler ⟨some 7, true, 2⟩ ⟨"/work", 7⟩ ("build_images" :: ["--all"])
        { sub := fun _ => none, lookPathOk := fun _ _ => false
        , catResult := fun _ => none
        , ensureKubectl := Except.ok "/cache/kubectl"
        , ensureHelm := Except.ok "/cache/helm"
        , osExecutable := Except.ok "/bin/devspace"
        , defaultExec := fun _ => HandlerResult.exit 127 }).result = HandlerResult.exit 0 ↔
      (none : Option String) = none) :=
  reserved_enabled_calls_subsystem_once ⟨some 7, true, 2⟩ ⟨"/work", 7⟩ ["--all"]
    { sub := fun _ => none, lookPathOk := fun _ _ => false
    , catResult := fun _ => none
    , ensureKubectl := Except.ok "/cache/kubectl"
    , ensureHelm := Except.ok "/cache/helm"
    , osExecutable := Except.ok "/bin/devspace"
    , defaultExec := fun _ => HandlerResult.exit 127 }
    "build_images"
    (SubsystemCall.build (full.deriveDevCtx ⟨some 7, true, 2⟩ ⟨"/work", 7⟩) ["--all"])
    rfl rfl

/-- Claim C2: for every reserved command name, invoking it with pipeline
commands disabled calls no native subsystem, writes the diagnostic
"name: cannot execute the command because it can only be executed within a
pipeline step" to the invocation's error stream, and yields exit status 1 as
a handled outcome (no lookup, no fallback, no default execution). -/
theorem reserved_disabled_rejected
    (e : full.ExecHandlerState) (hc : HandlerCtxData) (args : List String)
    (env : Env) (name : String) (call : SubsystemCall)
    (hen : e.enablePipelineCommands = false)
    (hres : reservedCall (full.deriveDevCtx e hc) name args = some call) :
    (full.ExecHandler e hc (name :: args) env).calls = [] ∧
    (full.ExecHandler e hc (name :: args) env).stderr =
      [name ++ ": cannot execute the command because it can only be executed within a pipeline step"] ∧
    (full.ExecHandler e hc (name :: args) env).result = HandlerResult.exit 1 ∧
    (full.ExecHandler e hc (name :: args) env).defaultExecs = [] ∧
    (full.ExecHandler e hc (name :: args) env).lookups = [] ∧
    (full.ExecHandler e hc (name :: args) env).fallbacks = [] := by
  rw [execHandler_reserved_eq e hc args env name call hres]
  simp [full.executePipelineCommand, hen]

/-- Witness for C2: the scenario name="build_images", args=["--all"], mode
disabled: no subsystem call, the rejection diagnostic on stderr, exit 1. -/
theorem reserved_disabled_rejected_witness :
    (full.ExecHandler ⟨some 7, false, 2⟩ ⟨"/work", 7⟩ ("build_images" :: ["--all"])
        { sub := fun _ => some "should not be called", lookPathOk := fun _ _ => false
        , catResult := fun _ => none
        , ensureKubectl := Except.ok "/cache/kubectl"
        , ensureHelm := Except.ok "/cache/helm"
        , osExecutable := Except.ok "/bin/devspace"
        , defaultExec := fun _ => HandlerResult.exit 127 }).calls = [] ∧
    (full.ExecHandler ⟨some 7, false, 2⟩ ⟨"/work", 7⟩ ("build_images" :: ["--all"])
        { sub := fun _ => some "should not be called", lookPathOk := fun _ _ => false
        , catResult := fun _ => none
        , ensureKubectl := Except.ok "/cache/kubectl"
        , ensureHelm := Except.ok "/cache/helm"
        , osExecutable := Except.ok "/bin/devspace"
        , defaultExec := fun _ => HandlerResult.exit 127 }).stderr =
      ["build_images" ++ ": cannot execute the command because it can only be executed within a pipeline step"] ∧
    (full.ExecHandler ⟨some 7, false, 2⟩ ⟨"/work", 7⟩ ("build_images" :: ["--all"])
        { sub := fun _ => some "should not be called", lookPathOk := fun _ _ => false
        , catResult := fun _ => none
        , ensureKubectl := Except.ok "/cache/kubectl"
        , ensureHelm := Except.ok "/cache/helm"
        , osExecutable := Except.ok "/bin/devspace"
        , defaultExec := fun _ => HandlerResult.exit 127 }).result = HandlerResult.exit 1 ∧
    (full.ExecHandler ⟨some 7, false, 2⟩ ⟨"/work", 7⟩ ("build_images" :: ["--all"])
        { sub := fun _ => some "should not be called", lookPathOk := fun _ _ => false
        , catResult := fun _ => none
        , ensureKubectl := Except.ok "/cache/kubectl"
        , ensureHelm := Except.ok "/cache/helm"
        , osExecutable := Except.ok "/bin/devspace"
        , defaultExec := fun _ => HandlerResult.exit 127 }).defaultExecs = [] ∧
    (full.ExecHandler ⟨some 7, false, 2⟩ ⟨"/work", 7⟩ ("build_images" :: ["--all"])
        { sub := fun _ => some "should not be called", lookPathOk := fun _ _ => false
        , catResult := fun _ => none
        , ensureKubectl := Except.ok "/cache/kubectl"
        , ensureHelm := Except.ok "/cache/helm"
        , osExecutable := Except.ok "/bin/devspace"
        , defaultExec := fun _ => HandlerResult.exit 127 }).lookups = [] ∧
    (full.ExecHandler ⟨some 7, false, 2⟩ ⟨"/work", 7⟩ ("build_images" :: ["--all"])
        { sub := fun _ => some "should not be called", lookPathOk := fun _ _ => false
        , catResult := fun _ => none
        , ensureKubectl := Except.ok "/cache/kubectl"
        , ensureHelm := Except.ok "/cache/helm"
        , osExecutable := Except.ok "/bin/devspace"
        , defaultExec := fun _ => HandlerResult.exit 127 }).fallbacks = [] :=
  reserved_disabled_rejected ⟨some 7, false, 2⟩ ⟨"/work", 7⟩ ["--all"]
    { sub := fun _ => some "should not be called", lookPathOk := fun _ _ => false
    , catResult := fun _ => none
    , ensureKubectl := Except.ok "/cache/kubectl"
    , ensureHelm := Except.ok "/cache/helm"
    , osExecutable := Except.ok "/bin/devspace"
    , defaultExec := fun _ => HandlerResult.exit 127 }
    "build_images"
    (SubsystemCall.build (full.deriveDevCtx ⟨some 7, false, 2⟩ ⟨"/work", 7⟩) ["--all"])
    rfl rfl

/-- Claim C3: every invocation of a reserved command yields a handled outcome
unconditionally (an exit status, 0 or 1, whether or not pipeline commands are
enabled), and the name is never passed to the path lookup, to the fallback
provider, or to default process execution. -/
theorem reserved_always_handled
    (e : full.ExecHandlerState) (hc : HandlerCtxData) (args : List String)
    (env : Env) (name : String) (call : SubsystemCall)
    (hres : reservedCall (full.deriveDevCtx e hc) name args = some call) :
    (full.ExecHandler e hc (name :: args) env).lookups = [] ∧
    (full.ExecHandler e hc (name :: args) env).fallbacks = [] ∧
    (full.ExecHandler e hc (name :: args) env).defaultExecs = [] ∧
    (full.ExecHandler e hc (name :: args) env).downloads = [] ∧
    ((full.ExecHandler e hc (name :: args) env).result = HandlerResult.exit 0 ∨
      (full.ExecHandler e hc (name :: args) env).result = HandlerResult.exit 1) := by
  rw [execHandler_reserved_eq e hc args env name call hres]
  refine ⟨rfl, rfl, rfl, rfl, ?_⟩
  cases hen : e.enablePipelineCommands
  · exact Or.inr (by simp [full.executePipelineCommand, hen])
  · cases hsub : env.sub call
    · exact Or.inl (by simp [full.executePipelineCommand, full.handleError, hen, hsub])
    · exact Or.inr (by simp [full.executePipelineCommand, full.handleError, hen, hsub])

/-- Witness for C3: name="stop_dev" with pipeline commands disabled still
yields a handled exit status and never reaches lookup, fallback or default
execution. -/
theorem reserved_always_handled_witness :
    (full.ExecHandler ⟨none, false, 5⟩ ⟨"/tmp", 3⟩ ("stop_dev" :: [])
        { sub := fun _ => none, lookPathOk := fun _ _ => true
        , catResult := fun _ => none
        , ensureKubectl := Except.ok "/cache/kubectl"
        , ensureHelm := Except.ok "/cache/helm"
        , osExecutable := Except.ok "/bin/devspace"
        , defaultExec := fun _ => HandlerResult.nilErr }).lookups = [] ∧
    (full.ExecHandler ⟨none, false, 5⟩ ⟨"/tmp", 3⟩ ("stop_dev" :: [])
        { sub := fun _ => none, lookPathOk := fun _ _ => true
        , catResult := fun _ => none
        , ensureKubectl := Except.ok "/cache/kubectl"
        , ensureHelm := Except.ok "/cache/helm"
        , osExecutable := Except.ok "/bin/devspace"
        , defaultExec := fun _ => HandlerResult.nilErr }).fallbacks = [] ∧
    (full.ExecHandler ⟨none, false, 5⟩ ⟨"/tmp", 3⟩ ("stop_dev" :: [])
        { sub := fun _ => none, lookPathOk := fun _ _ => true
        , catResult := fun _ => none
        , ensureKubectl := Except.ok "/cache/kubectl"
        , ensureHelm := Except.ok "/cache/helm"
        , osExecutable := Except.ok "/bin/devspace"
        , defaultExec := fun _ => HandlerResult.nilErr }).defaultExecs = [] ∧
    (full.ExecHandler ⟨none, false, 5⟩ ⟨"/tmp", 3⟩ ("stop_dev" :: [])
        { sub := fun _ => none, lookPathOk := fun _ _ => true
        , catResult := fun _ => none
        , ensureKubectl := Except.ok "/cache/kubectl"
        , ensureHelm := Except.ok "/cache/helm"
        , osExecutable := Except.ok "/bin/devspace"
        , defaultExec := fun _ => HandlerResult.nilErr }).downloads = [] ∧
    ((full.ExecHandler ⟨none, false, 5⟩ ⟨"/tmp", 3⟩ ("stop_dev" :: [])
        { sub := fun _ => none, lookPathOk := fun _ _ => true
        , catResult := fun _ => none
        , ensureKubectl := Except.ok "/cache/kubectl"
        , ensureHelm := Except.ok "/cache/helm"
        , osExecutable := Except.ok "/bin/devspace"
        , defaultExec := fun _ => HandlerResult.nilErr }).result = HandlerResult.exit 0 ∨
      (full.ExecHandler ⟨none, false, 5⟩ ⟨"/tmp", 3⟩ ("stop_dev" :: [])
        { sub := fun _ => none, lookPathOk := fun _ _ => true
        , catResult := fun _ => none
        , ensureKubectl := Except.ok "/cache/kubectl"
        , ensureHelm := Except.ok "/cache/helm"
        , osExecutable := Except.ok "/bin/devspace"
        , defaultExec := fun _ => HandlerResult.nilErr }).result = HandlerResult.exit 1) :=
  reserved_always_handled ⟨none, false, 5⟩ ⟨"/tmp", 3⟩ []
    { sub := fun _ => none, lookPathOk := fun _ _ => true
    , catResult := fun _ => none
    , ensureKubectl := Except.ok "/cache/kubectl"
    , ensureHelm := Except.ok "/cache/helm"
    , osExecutable := Except.ok "/bin/devspace"
    , defaultExec := fun _ => HandlerResult.nilErr }
    "stop_dev"
    (SubsystemCall.stopDev (full.deriveDevCtx ⟨none, false, 5⟩ ⟨"/tmp", 3⟩) [])
    rfl

/-- Baseline collaborator environment used by concrete evaluations: all
subsystems succeed, nothing is on the local path, downloads succeed, and the
interpreter's default exec handler reports "command not found" (127). -/
def baseEnv : Env :=
  { sub := fun _ => none
  , lookPathOk := fun _ _ => false
  , catResult := fun _ => none
  , ensureKubectl := Except.ok "/cache/kubectl"
  , ensureHelm := Except.ok "/cache/helm"
  , osExecutable := Except.ok "/bin/devspace"
  , defaultExec := fun _ => HandlerResult.exit 127 }

/-- Counterexample for C4: in the reduced engine (handler.go lines 216-239,
cited by the claim), a native error from the reserved command `build` is
written to stderr unmodified, not wrapped with the command name as prefix. -/
theorem translator_unwrapped_counterexample :
    (reduced.ExecHandler ⟨2⟩ ⟨"/w", 7⟩ ("build" :: ["x"])
        { baseEnv with sub := fun _ => some "boom" }).stderr = ["boom"] ∧
    (reduced.ExecHandler ⟨2⟩ ⟨"/w", 7⟩ ("build" :: ["x"])
        { baseEnv with sub := fun _ => some "boom" }).result = HandlerResult.exit 1 ∧
    (reduced.ExecHandler ⟨2⟩ ⟨"/w", 7⟩ ("build" :: ["x"])
        { baseEnv with sub := fun _ => some "boom" }).calls =
      [SubsystemCall.build ⟨"/w", Logger.stream 7 2⟩ ["x"]] ∧
    (("boom" : String) = "build" ++ ": " ++ "boom" → False) := by
  refine ⟨rfl, rfl, rfl, ?_⟩
  decide

/-- Claim C4 (amended): both translators map a nil error to exit 0 and every
non-nil error to exit 1 after writing it to the error stream, uniformly in
the command and in the error text; the full engine's translator writes the
error wrapped with the command name as prefix, while the reduced engine's
translator writes it unwrapped. -/
theorem translator_exit_mapping (cmd msg : String) :
    full.handleError cmd none = (HandlerResult.exit 0, []) ∧
    full.handleError cmd (some msg) =
      (HandlerResult.exit 1, [cmd ++ ": " ++ msg]) ∧
    reduced.handleError none = (HandlerResult.exit 0, []) ∧
    reduced.handleError (some msg) = (HandlerResult.exit 1, [msg]) :=
  ⟨rfl, rfl, rfl, rfl⟩

/-- Environment for the kubectl fallback scenario: "kubectl" is not on the
local path, its acquisition succeeds with "/cache/kubectl", and the
interpreter's default exec handler succeeds only when handed the resolved
path (the bare name stays unresolvable). -/
def kubectlScenarioEnv : Env :=
  { baseEnv with
    defaultExec := fun as =>
      if as = ["/cache/kubectl", "get", "pods"] then HandlerResult.nilErr
      else HandlerResult.exit 127 }

/-- Claim C5 evaluated at the failing input (code bug): for name="kubectl",
args=["get","pods"], the acquisition succeeds and `fallbackCommands` assigns
"/cache/kubectl" to its local `command` variable (fourth component below),
but `ExecHandler` discards it and hands the interpreter the original,
unsubstituted vector ["kubectl","get","pods"], so the run fails with 127
instead of executing the resolved binary. -/
theorem kubectl_substitution_lost :
    (full.ExecHandler ⟨some 7, true, 2⟩ ⟨"/w", 7⟩ ("kubectl" :: ["get", "pods"])
        kubectlScenarioEnv).downloads = ["kubectl"] ∧
    (full.ExecHandler ⟨some 7, true, 2⟩ ⟨"/w", 7⟩ ("kubectl" :: ["get", "pods"])
        kubectlScenarioEnv).stderr = [] ∧
    (full.fallbackCommands "kubectl" ["get", "pods"] kubectlScenarioEnv).2.2.1 =
      "/cache/kubectl" ∧
    (full.ExecHandler ⟨some 7, true, 2⟩ ⟨"/w", 7⟩ ("kubectl" :: ["get", "pods"])
        kubectlScenarioEnv).defaultExecs = [["kubectl", "get", "pods"]] ∧
    (full.ExecHandler ⟨some 7, true, 2⟩ ⟨"/w", 7⟩ ("kubectl" :: ["get", "pods"])
        kubectlScenarioEnv).result = HandlerResult.exit 127 ∧
    ((["kubectl", "get", "pods"] : List String) =
        ["/cache/kubectl", "get", "pods"] → False) := by
  refine ⟨rfl, rfl, rfl, rfl, rfl, ?_⟩
  decide

/-- Counterexample for C6: in the reduced engine (handler.go lines 241-279,
cited by the claim), a name unknown to the fallback provider is not declined:
the provider itself writes "command is not found." and yields exit 127, and
the invocation is never delegated to the interpreter's default process
execution. -/
theorem unknown_name_not_delegated_counterexample :
    (reduced.ExecHandler ⟨2⟩ ⟨"/w", 7⟩ ("totally-unknown-tool" :: [])
        baseEnv).defaultExecs = [] ∧
    (reduced.ExecHandler ⟨2⟩ ⟨"/w", 7⟩ ("totally-unknown-tool" :: [])
        baseEnv).stderr = ["command is not found."] ∧
    (reduced.ExecHandler ⟨2⟩ ⟨"/w", 7⟩ ("totally-unknown-tool" :: [])
        baseEnv).result = HandlerResult.exit 127 ∧
    (([] : List (List String)) = [["totally-unknown-tool"]] → False) := by
  refine ⟨rfl, rfl, rfl, ?_⟩
  decide

/-- Claim C6 (amended): for a name that is not reserved, not locally
resolvable and unknown to the fallback provider, the full engine declines in
the provider (nothing written, nothing downloaded, no subsystem call) and
delegates to the interpreter's default process execution with the original
argument vector, returning whatever status the interpreter reports
(conventionally 127); the reduced engine's provider instead reports
"command is not found." itself with a handled exit status 127, without
delegating. -/
theorem unknown_name_resolution :
    (∀ (e : full.ExecHandlerState) (hc : HandlerCtxData) (env : Env)
        (name : String) (args : List String),
      name ∉ reservedNames → name ∉ fallbackNames →
      env.lookPathOk hc.dir name = false →
      (full.ExecHandler e hc (name :: args) env).calls = [] ∧
      (full.ExecHandler e hc (name :: args) env).stderr = [] ∧
      (full.ExecHandler e hc (name :: args) env).downloads = [] ∧
      (full.ExecHandler e hc (name :: args) env).defaultExecs = [name :: args] ∧
      (full.ExecHandler e hc (name :: args) env).result =
        env.defaultExec (name :: args)) ∧
    (∀ (e : reduced.ExecHandlerState) (hc : HandlerCtxData) (env : Env)
        (name : String) (args : List String),
      name ∉ reducedReservedNames → name ∉ fallbackNames →
      env.lookPathOk hc.dir name = false →
      (reduced.ExecHandler e hc (name :: args) env).calls = [] ∧
      (reduced.ExecHandler e hc (name :: args) env).defaultExecs = [] ∧
      (reduced.ExecHandler e hc (name :: args) env).stderr =
        ["command is not found."] ∧
      (reduced.ExecHandler e hc (name :: args) env).result =
        HandlerResult.exit 127) := by
  constructor
  · intro e hc env name args hr hf hlook
    simp only [reservedNames, List.mem_cons, List.not_mem_nil, or_false, not_or] at hr
    simp only [fallbackNames, List.mem_cons, List.not_mem_nil, or_false, not_or] at hf
    obtain ⟨h1, h2, h3, h4, h5, h6⟩ := hr
    obtain ⟨f1, f2, f3, f4⟩ := hf
    refine ⟨?_, ?_, ?_, ?_, ?_⟩ <;>
      simp [full.ExecHandler, full.handlePipelineCommands, full.fallbackCommands,
            h1, h2, h3, h4, h5, h6, f1, f2, f3, f4, hlook]
  · intro e hc env name args hr hf hlook
    simp only [reducedReservedNames, List.mem_cons, List.not_mem_nil, or_false,
      not_or] at hr
    simp only [fallbackNames, List.mem_cons, List.not_mem_nil, or_false, not_or] at hf
    obtain ⟨h1, h2, h3⟩ := hr
    obtain ⟨f1, f2, f3, f4⟩ := hf
    refine ⟨?_, ?_, ?_, ?_⟩ <;>
      simp [reduced.ExecHandler, reduced.handlePipelineCommands,
            reduced.fallbackCommands, h1, h2, h3, f1, f2, f3, f4, hlook]

/-- Witness for C6: name="totally-unknown-tool" in the full engine reaches
default process execution with the original vector and yields 127 there
(under the interpreter modelled to report "command not found"). -/
theorem unknown_name_resolution_witness :
    (full.ExecHandler ⟨some 7, true, 2⟩ ⟨"/w", 7⟩ ("totally-unknown-tool" :: [])
        baseEnv).defaultExecs = [["totally-unknown-tool"]] ∧
    (full.ExecHandler ⟨some 7, true, 2⟩ ⟨"/w", 7⟩ ("totally-unknown-tool" :: [])
        baseEnv).result = baseEnv.defaultExec ("totally-unknown-tool" :: []) :=
  ⟨(unknown_name_resolution.1 ⟨some 7, true, 2⟩ ⟨"/w", 7⟩ baseEnv
      "totally-unknown-tool" [] (by decide) (by decide) rfl).2.2.2.1,
   (unknown_name_resolution.1 ⟨some 7, true, 2⟩ ⟨"/w", 7⟩ baseEnv
      "totally-unknown-tool" [] (by decide) (by decide) rfl).2.2.2.2⟩

/-- Claim C7: within the full engine's fallback provider, exit 127 arises
exactly from a failed acquisition of the kubectl or helm binary; the other
fallback failures (an unreadable file in the native cat command, failure to
resolve the orchestrator's own binary path) yield exit 1, each after writing
the error to the invocation's error stream. -/
theorem fallback_127_only_for_binary_acquisition
    (cmd : String) (args : List String) (env : Env) :
    ((full.fallbackCommands cmd args env).1 = some 127 ↔
      ((cmd = "kubectl" ∧ ∃ m, env.ensureKubectl = Except.error m) ∨
       (cmd = "helm" ∧ ∃ m, env.ensureHelm = Except.error m))) ∧
    (∀ m, cmd = "cat" → env.catResult args = some m →
      full.fallbackCommands cmd args env = (some 1, [m], cmd, [])) ∧
    (∀ m, cmd = "devspace" → env.osExecutable = Except.error m →
      full.fallbackCommands cmd args env = (some 1, [m], cmd, [])) ∧
    (∀ m, cmd = "kubectl" → env.ensureKubectl = Except.error m →
      full.fallbackCommands cmd args env = (some 127, [m], cmd, ["kubectl"])) ∧
    (∀ m, cmd = "helm" → env.ensureHelm = Except.error m →
      full.fallbackCommands cmd args env = (some 127, [m], cmd, ["helm"])) := by
  by_cases h1 : cmd = "cat"
  · subst h1
    cases hcat : env.catResult args <;>
      simp [full.fallbackCommands, hcat]
  by_cases h2 : cmd = "kubectl"
  · subst h2
    cases hk : env.ensureKubectl <;>
      simp [full.fallbackCommands, h1, hk]
  by_cases h3 : cmd = "helm"
  · subst h3
    cases hh : env.ensureHelm <;>
      simp [full.fallbackCommands, h1, h2, hh]
  by_cases h4 : cmd = "devspace"
  · subst h4
    cases hx : env.osExecutable <;>
      simp [full.fallbackCommands, h1, h2, h3, hx]
  simp [full.fallbackCommands, h1, h2, h3, h4]

/-- Witness for C7: an unreadable file in the native cat command yields exit
1 with the error on stderr, and a failed kubectl acquisition yields 127. -/
theorem fallback_127_only_for_binary_acquisition_witness :
    full.fallbackCommands "cat" ["f"]
        { baseEnv with catResult := fun _ => some "open f: no such file" } =
      (some 1, ["open f: no such file"], "cat", []) ∧
    full.fallbackCommands "kubectl" []
        { baseEnv with ensureKubectl := Except.error "download failed" } =
      (some 127, ["download failed"], "kubectl", ["kubectl"]) :=
  ⟨(fallback_127_only_for_binary_acquisition "cat" ["f"]
      { baseEnv with catResult := fun _ => some "open f: no such file" }).2.1
      "open f: no such file" rfl rfl,
   (fallback_127_only_for_binary_acquisition "kubectl" []
      { baseEnv with ensureKubectl := Except.error "download failed" }).2.2.2.1
      "download failed" rfl rfl⟩

/-- Counterexample for C8: in the reduced engine (handler.go lines 210-215,
cited by the claim), the derived context's logger is a fresh stream logger
even when the invocation's output stream (id 7 here) is the pipeline's
top-level output stream; the ambient logger is never reused. -/
theorem reduced_logger_counterexample :
    reduced.deriveDevCtx ⟨2⟩ ⟨"/w", 7⟩ =
      { workingDir := "/w", log := Logger.stream 7 2 } ∧
    (Logger.stream 7 2 = Logger.ambient → False) ∧
    (reduced.handlePipelineCommands ⟨2⟩ ⟨"/w", 7⟩ "build" [] baseEnv).2.2.2 =
      [SubsystemCall.build ⟨"/w", Logger.stream 7 2⟩ []] := by
  refine ⟨rfl, ?_, rfl⟩
  decide

/-- Claim C8 (amended): in the full engine the derived context replaces the
working directory with the invocation's current directory and reuses the
ambient logger exactly when the invocation's output stream is identical to
the pipeline's top-level output stream, otherwise creating a new stream
logger on the invocation's stream at the ambient severity level; the reduced
engine also replaces the working directory but always creates a new stream
logger at the ambient level, never reusing the ambient logger. -/
theorem derive_ctx_logger_rule :
    (∀ (e : full.ExecHandlerState) (hc : HandlerCtxData),
      (full.deriveDevCtx e hc).workingDir = hc.dir ∧
      (e.stdout = some hc.stdout →
        (full.deriveDevCtx e hc).log = Logger.ambient) ∧
      (e.stdout ≠ some hc.stdout →
        (full.deriveDevCtx e hc).log = Logger.stream hc.stdout e.ambientLogLevel)) ∧
    (∀ (e : reduced.ExecHandlerState) (hc : HandlerCtxData),
      (reduced.deriveDevCtx e hc).workingDir = hc.dir ∧
      (reduced.deriveDevCtx e hc).log = Logger.stream hc.stdout e.ambientLogLevel) := by
  constructor
  · intro e hc
    refine ⟨rfl, ?_, ?_⟩ <;> intro h <;> simp [full.deriveDevCtx, h]
  · intro e hc
    exact ⟨rfl, rfl⟩

/-- Witness for C8: with the invocation stream equal to the engine's stdout
(both id 7) the ambient logger is reused; with a redirected stream (id 9) a
stream logger at the ambient level 2 is created. -/
theorem derive_ctx_logger_rule_witness :
    (full.deriveDevCtx ⟨some 7, true, 2⟩ ⟨"/w", 7⟩).log = Logger.ambient ∧
    (full.deriveDevCtx ⟨some 7, true, 2⟩ ⟨"/w", 9⟩).log = Logger.stream 9 2 :=
  ⟨(derive_ctx_logger_rule.1 ⟨some 7, true, 2⟩ ⟨"/w", 7⟩).2.1 rfl,
   (derive_ctx_logger_rule.1 ⟨some 7, true, 2⟩ ⟨"/w", 9⟩).2.2 (by decide)⟩

/-- With `forceDeploy = true`, a successful apply loop applies every manifest
and skips none. -/
lemma applyLoop_forced (c : kubectl.DeployCollab) :
    ∀ (l : List String) (w b : Bool),
      (kubectl.applyLoop c true l w).1 = Except.ok b →
      (kubectl.applyLoop c true l w).2.1 = l ∧
      (kubectl.applyLoop c true l w).2.2 = [] := by
  intro l
  induction l with
  | nil => intro w b _; exact ⟨rfl, rfl⟩
  | cons m rest ih =>
    intro w b h
    cases hg : c.getReplacedManifest m with
    | error e => simp [kubectl.applyLoop, hg] at h
    | ok sr =>
      cases ha : c.runApply m with
      | some e => simp [kubectl.applyLoop, hg, ha] at h
      | none =>
        simp only [kubectl.applyLoop, hg, ha, Bool.or_true, if_true] at h ⊢
        obtain ⟨h1, h2⟩ := ih true b h
        exact ⟨by rw [h1], h2⟩

/-- Claim C9: on every successful run of the kubectl deployer's Deploy, every
manifest is applied and none is skipped (redeploy is unconditionally forced,
whatever the cached hashes are), and the freshly computed manifests hash and
deployment-config hash are stored back into the deployment cache. -/
theorem deploy_always_applies_and_caches
    (c : kubectl.DeployCollab) (cache : kubectl.DeploymentCache)
    (manifests : List String) (b : Bool)
    (h : (kubectl.Deploy c cache manifests).result = Except.ok b) :
    (kubectl.Deploy c cache manifests).applied = manifests ∧
    (kubectl.Deploy c cache manifests).skipped = [] ∧
    ∃ mh cfg, kubectl.computeManifestsHash c manifests "" = Except.ok mh ∧
      c.marshalConfig = Except.ok cfg ∧
      (kubectl.Deploy c cache manifests).cacheWrite =
        some { kubectlManifestsHash := mh
             , deploymentConfigHash := c.hashString cfg } := by
  obtain ⟨x, y⟩ := cache
  cases hmh : kubectl.computeManifestsHash c manifests "" with
  | error e => simp [kubectl.Deploy, hmh] at h
  | ok mh =>
    cases hcfg : c.marshalConfig with
    | error e => simp [kubectl.Deploy, hmh, hcfg] at h
    | ok cfg =>
      cases hr : (kubectl.applyLoop c true manifests false).1 with
      | error e => simp [kubectl.Deploy, hmh, hcfg, hr] at h
      | ok w =>
        obtain ⟨h1, h2⟩ := applyLoop_forced c manifests false w hr
        refine ⟨?_, ?_, mh, cfg, rfl, rfl, ?_⟩ <;>
          simp [kubectl.Deploy, hmh, hcfg, hr, h1, h2]

/-- Concrete deploy collaborators for the C9 witness: directory hashes and a
config hash are computed, every replaced manifest reports
`shouldRedeploy = false`, and every apply succeeds. -/
def deployCollabW : kubectl.DeployCollab :=
  { hashString := fun s => s ++ "#"
  , resolvePath := fun s => s
  , hashDirectory := fun p => Except.ok ("h(" ++ p ++ ")")
  , marshalConfig := Except.ok "cfg"
  , getReplacedManifest := fun m => Except.ok (false, m)
  , runApply := fun _ => none }

/-- Witness for C9: even with the cached hashes equal to the freshly computed
ones ("h(m1)h(m2)" and "cfg#") and `shouldRedeploy = false` for every
manifest, both manifests are applied, none skipped, and the hashes are
stored back. -/
theorem deploy_always_applies_and_caches_witness :
    (kubectl.Deploy deployCollabW ⟨"h(m1)h(m2)", "cfg#"⟩ ["m1", "m2"]).applied =
      ["m1", "m2"] ∧
    (kubectl.Deploy deployCollabW ⟨"h(m1)h(m2)", "cfg#"⟩ ["m1", "m2"]).skipped = [] ∧
    ∃ mh cfg,
      kubectl.computeManifestsHash deployCollabW ["m1", "m2"] "" = Except.ok mh ∧
      deployCollabW.marshalConfig = Except.ok cfg ∧
      (kubectl.Deploy deployCollabW ⟨"h(m1)h(m2)", "cfg#"⟩ ["m1", "m2"]).cacheWrite =
        some { kubectlManifestsHash := mh
             , deploymentConfigHash := deployCollabW.hashString cfg } :=
  deploy_always_applies_and_caches deployCollabW ⟨"h(m1)h(m2)", "cfg#"⟩
    ["m1", "m2"] true rfl

/-- Once the once-guard has fired, further calls return the memoized pair and
perform no lookup. -/
lemma runChecks_after_once (c : upgrade.CheckCollab) :
    ∀ (n : Nat) (s : upgrade.LatestState), s.onceDone = true →
      upgrade.runChecks c s n =
        (List.replicate n (s.latestVersion, s.latestVersionErr), s, 0) := by
  intro n
  induction n with
  | zero => intro s _; rfl
  | succ k ih =>
    intro s h
    simp [upgrade.runChecks, upgrade.CheckForNewerVersion, h, ih s h,
      List.replicate]

/-- Claim C10: `CheckForNewerVersion` performs the remote lookup at most once
per process: over any sequence of `n` calls from the process-start state,
every call returns exactly the pair the first call returns, and the total
number of remote lookups is `min n 1`. -/
theorem check_for_newer_version_memoized (c : upgrade.CheckCollab) (n : Nat) :
    (upgrade.runChecks c upgrade.startState n).1 =
      List.replicate n (upgrade.CheckForNewerVersion c upgrade.startState).1 ∧
    (upgrade.runChecks c upgrade.startState n).2.2 = min n 1 := by
  cases n with
  | zero => exact ⟨rfl, rfl⟩
  | succ k =>
    have hfire : upgrade.CheckForNewerVersion c upgrade.startState =
        (( ({ upgrade.detectOnceBody c upgrade.startState with
              onceDone := true } : upgrade.LatestState).latestVersion,
           ({ upgrade.detectOnceBody c upgrade.startState with
              onceDone := true } : upgrade.LatestState).latestVersionErr),
         { upgrade.detectOnceBody c upgrade.startState with onceDone := true },
         1) := rfl
    have hrest := runChecks_after_once c k
      { upgrade.detectOnceBody c upgrade.startState with onceDone := true } rfl
    constructor
    · simp [upgrade.runChecks, hfire, hrest, List.replicate]
    · simp [upgrade.runChecks, hfire, hrest]
